import Mathlib

/-!
kubelogin: the keyboard-interactive authorization-code flow and the
authentication use case.

A shallow embedding of `pkg/usecases/authentication/authcode/keyboard.go`
(`Keyboard.Do`) and of the authentication use case that dispatches to it.

Go code with side effects is embedded by explicit state passing: every
capability (OIDC client, reader, logger, clock, the random generators of the
`oidc` and `pkce` packages) is a function from the state of the outside world
`σ` to a result and a new state.  Each call is also written to a log of
`Event`s, in program order, with its arguments and its result, so that
statements about which calls were made, with what, can be stated and proved.
-/

set_option autoImplicit false

/-! ## Errors (`error`, `golang.org/x/xerrors`) -/

/-- A Go `error` value: either a plain error, or one made by
`xerrors.Errorf("...: %w", err)`, which keeps the error it wraps. -/
inductive Error where
  | plain (msg : String)
  | wrapping (msg : String) (cause : Error)
  deriving DecidableEq, Repr

namespace Error

/-- The text of the error, Go's `err.Error()`. -/
def Message : Error → String
  | plain msg => msg
  | wrapping msg _ => msg

/-- The wrapped error, Go's `errors.Unwrap(err)` (`none` is `nil`). -/
def Unwrap : Error → Option Error
  | plain _ => none
  | wrapping _ cause => some cause

end Error

namespace xerrors

/-- The call `xerrors.Errorf(stage + ": %w", err)`: the message is the stage
text, a colon, a blank and the text of `err`, and the result wraps `err`. -/
def Errorf (stage : String) (err : Error) : Error :=
  Error.wrapping (stage ++ ": " ++ err.Message) err

/-- The call `xerrors.New(msg)`. -/
def New (msg : String) : Error := Error.plain msg

end xerrors

deriving instance DecidableEq for Except

/-! ## Domain types (`pkg/domain/oidc`, `pkg/domain/pkce`, `pkg/adaptors/oidcclient`) -/

/-- A `context.Context`; only its identity matters here. -/
structure Context where
  id : Nat
  deriving DecidableEq, Repr

namespace pkce

/-- The PKCE methods (spec §3: `Method: enum{none, S256, plain}`). -/
inductive Method where
  | none
  | S256
  | plain
  deriving DecidableEq, Repr

/-- The type `pkce.Params` (spec §3: `{Method, Verifier, Challenge}`); its
declaration is not among the source files, its fields are those of the
specification. -/
structure Params where
  Method : Method
  Verifier : String
  Challenge : String
  deriving DecidableEq, Repr

end pkce

namespace oidc

/-- The decoded claims of an ID token (spec §3: at least `Expiry` and
`Subject`); the expiry is an instant in seconds since the Unix epoch. -/
structure Claims where
  Subject : String
  Expiry : Int
  deriving DecidableEq, Repr

/-- The type `oidc.TokenSet`, with the three fields `Keyboard.Do` reads. -/
structure TokenSet where
  IDToken : String
  IDTokenClaims : Claims
  RefreshToken : String
  deriving DecidableEq, Repr

/-- The type `oidc.Provider` (spec §3), the fields the tests set. -/
structure Provider where
  IssuerURL : String
  ClientID : String
  ClientSecret : String
  deriving DecidableEq, Repr

end oidc

namespace oidcclient

/-- The type `oidcclient.AuthCodeURLInput`, with the fields `Keyboard.Do`
sets (keyboard.go, lines 41-47).  A Go `map[string]string` is kept as the list
of its key/value pairs. -/
structure AuthCodeURLInput where
  State : String
  Nonce : String
  PKCEParams : pkce.Params
  RedirectURI : String
  AuthRequestExtraParams : List (String × String)
  deriving DecidableEq, Repr

/-- The type `oidcclient.ExchangeAuthCodeInput`, with the fields
`Keyboard.Do` sets (keyboard.go, lines 55-60). -/
structure ExchangeAuthCodeInput where
  Code : String
  PKCEParams : pkce.Params
  Nonce : String
  RedirectURI : String
  deriving DecidableEq, Repr

end oidcclient

/-! ## The log of capability calls -/

/-- The three grant flows of the authentication use case. -/
inductive FlowKind where
  | Browser
  | Keyboard
  | ROPC
  deriving DecidableEq, Repr

/-- One call of a capability, with its arguments and what it returned.  A
fallible call returns `Except Error _`: Go's `(value, err)` pair, where the
value is read only when `err == nil`. -/
inductive Event where
  /-- The call `Logger.V(level).Infof(msg)`. -/
  | Infof (level : Nat) (msg : String)
  /-- The call `Logger.Printf(...)`, with the formatted text. -/
  | Printf (msg : String)
  /-- The call `oidc.NewState()`. -/
  | NewState (r : Except Error String)
  /-- The call `oidc.NewNonce()`. -/
  | NewNonce (r : Except Error String)
  /-- The call `client.SupportedPKCEMethods()`. -/
  | SupportedPKCEMethods (r : List pkce.Method)
  /-- The call `pkce.New(methods)`. -/
  | PKCENew (methods : List pkce.Method) (r : Except Error pkce.Params)
  /-- The call `client.GetAuthCodeURL(i)`. -/
  | GetAuthCodeURL (i : oidcclient.AuthCodeURLInput) (url : String)
  /-- The call `Reader.ReadString(question)`. -/
  | ReadString (question : String) (r : Except Error String)
  /-- The call `client.ExchangeAuthCode(ctx, i)`. -/
  | ExchangeAuthCode (ctx : Context) (i : oidcclient.ExchangeAuthCodeInput)
      (r : Except Error oidc.TokenSet)
  /-- The call `Clock.Now()`. -/
  | Now (t : Int)
  /-- The call `OIDCClient.New(ctx, provider)` of the client factory, with
  the error it returned (`none` is `nil`). -/
  | FactoryNew (ctx : Context) (p : oidc.Provider) (err : Option Error)
  /-- The call `client.Refresh(ctx, refreshToken)`. -/
  | Refresh (ctx : Context) (refreshToken : String) (r : Except Error oidc.TokenSet)
  /-- The call of the `Do` of a grant flow. -/
  | Flow (k : FlowKind)
  /-- The return of the `Do` of a grant flow, with Go's pair
  `(*oidc.TokenSet, error)` it returned. -/
  | FlowReturned (k : FlowKind) (r : Option oidc.TokenSet × Option Error)
  deriving DecidableEq, Repr

/-- What a run of an effectful Go function leaves: the value returned, the
state of the world after it, and the calls it made, in order. -/
structure Ran (σ α : Type) where
  val : α
  st : σ
  log : List Event

/-- An effectful computation over the world state `σ`. -/
def Eff (σ α : Type) : Type := σ → Ran σ α

namespace Eff

variable {σ α β : Type}

/-- Return a value, calling nothing. -/
def ret (a : α) : Eff σ α := fun s => ⟨a, s, []⟩

/-- Run `m`, then `f` on its value, in the state `m` left; the logs follow
one another. -/
def andThen (m : Eff σ α) (f : α → Eff σ β) : Eff σ β := fun s =>
  let r := m s
  let r2 := f r.val r.st
  ⟨r2.val, r2.st, r.log ++ r2.log⟩

/-- Call a capability `f` that returns a value, and log the call as `ev`. -/
def call (f : σ → α × σ) (ev : α → Event) : Eff σ α := fun s =>
  let r := f s
  ⟨r.1, r.2, [ev r.1]⟩

/-- Call a capability `f` that returns nothing, and log the call as `ev`. -/
def act (f : σ → σ) (ev : Event) : Eff σ Unit := fun s => ⟨(), f s, [ev]⟩

/-- Write `ev` to the log, calling nothing. -/
def mark (ev : Event) : Eff σ Unit := fun s => ⟨(), s, [ev]⟩

/-- Run a capability `f` whose inner calls are not observed. -/
def quiet (f : σ → α × σ) : Eff σ α := fun s =>
  let r := f s
  ⟨r.1, r.2, []⟩

end Eff

/-! ## Capabilities -/

namespace logger

/-- The interface `logger.Interface`: the two ways `Keyboard.Do` writes. -/
structure Interface (σ : Type) where
  Printf : String → σ → σ
  Infof : Nat → String → σ → σ

end logger

namespace reader

/-- The interface `reader.Interface`. -/
structure Interface (σ : Type) where
  ReadString : String → σ → Except Error String × σ

end reader

namespace oidcclient

/-- The interface `oidcclient.Interface`, the methods the flows call. -/
structure Interface (σ : Type) where
  SupportedPKCEMethods : σ → List pkce.Method × σ
  GetAuthCodeURL : AuthCodeURLInput → σ → String × σ
  ExchangeAuthCode : Context → ExchangeAuthCodeInput → σ → Except Error oidc.TokenSet × σ
  Refresh : Context → String → σ → Except Error oidc.TokenSet × σ

end oidcclient

/-- The package-level functions `oidc.NewState`, `oidc.NewNonce` and
`pkce.New`.  Their source is not among the files at hand; they draw from a
random source, so they are parameters of the embedding, like the
capabilities. -/
structure Generators (σ : Type) where
  NewState : σ → Except Error String × σ
  NewNonce : σ → Except Error String × σ
  New : List pkce.Method → σ → Except Error pkce.Params × σ

/-! ## `pkg/usecases/authentication/authcode/keyboard.go` -/

namespace authcode

/-- keyboard.go, line 14. -/
def keyboardPrompt : String := "Enter code: "

/-- keyboard.go, line 15. -/
def oobRedirectURI : String := "urn:ietf:wg:oauth:2.0:oob"

/-- keyboard.go, lines 17-19. -/
structure KeyboardOption where
  AuthRequestExtraParams : List (String × String)
  deriving DecidableEq, Repr

/-- keyboard.go, lines 22-25: the authorization code flow with keyboard
interactive. -/
structure Keyboard (σ : Type) where
  Reader : reader.Interface σ
  Logger : logger.Interface σ

/-- What `Keyboard.Do` returns: Go's pair `(*oidc.TokenSet, error)`, `none`
for `nil`. -/
abbrev Result := Option oidc.TokenSet × Option Error

namespace Keyboard

variable {σ : Type}

/-- The call `u.Logger.V(level).Infof(msg)`. -/
def Infof (u : Keyboard σ) (level : Nat) (msg : String) : Eff σ Unit :=
  Eff.act (u.Logger.Infof level msg) (Event.Infof level msg)

/-- The call `u.Logger.Printf(format, arg)` for a format that ends in `%s`. -/
def Printf (u : Keyboard σ) (text : String) (arg : String) : Eff σ Unit :=
  Eff.act (u.Logger.Printf (text ++ arg)) (Event.Printf (text ++ arg))

/-- keyboard.go, lines 54-69: the exchange of the code and the result. -/
def exchange (u : Keyboard σ) (ctx : Context) (client : oidcclient.Interface σ)
    (nonce : String) (p : pkce.Params) (code : String) : Eff σ Result :=
  (u.Infof 1 "exchanging the code and token").andThen fun _ =>
  let i : oidcclient.ExchangeAuthCodeInput :=
    { Code := code, PKCEParams := p, Nonce := nonce, RedirectURI := oobRedirectURI }
  (Eff.call (client.ExchangeAuthCode ctx i) (Event.ExchangeAuthCode ctx i)).andThen fun r =>
  match r with
  | .error err =>
    Eff.ret (none, some (xerrors.Errorf "could not exchange the authorization code" err))
  | .ok tokenSet =>
    (u.Infof 1 "finished the authorization code flow with keyboard interactive").andThen fun _ =>
    Eff.ret (some { IDToken := tokenSet.IDToken,
                    IDTokenClaims := tokenSet.IDTokenClaims,
                    RefreshToken := tokenSet.RefreshToken }, none)

/-- keyboard.go, lines 41-52: the authorization URL, its display and the
read of the code; then `exchange`. -/
def authorize (u : Keyboard σ) (ctx : Context) (o : KeyboardOption)
    (client : oidcclient.Interface σ) (state nonce : String) (p : pkce.Params) :
    Eff σ Result :=
  let i : oidcclient.AuthCodeURLInput :=
    { State := state, Nonce := nonce, PKCEParams := p, RedirectURI := oobRedirectURI,
      AuthRequestExtraParams := o.AuthRequestExtraParams }
  (Eff.call (client.GetAuthCodeURL i) (Event.GetAuthCodeURL i)).andThen fun authCodeURL =>
  (u.Printf "Please visit the following URL in your browser: " authCodeURL).andThen fun _ =>
  (Eff.call (u.Reader.ReadString keyboardPrompt) (Event.ReadString keyboardPrompt)).andThen
    fun r =>
  match r with
  | .error err =>
    Eff.ret (none, some (xerrors.Errorf "could not read an authorization code" err))
  | .ok code => exchange u ctx client nonce p code

/-- The method `Keyboard.Do`, keyboard.go, lines 27-70.  The receiver, the
option and the client are not `nil`, and a call that returns a `nil` error
returns a value. -/
def Do (g : Generators σ) (u : Keyboard σ) (ctx : Context) (o : KeyboardOption)
    (client : oidcclient.Interface σ) : Eff σ Result :=
  (u.Infof 1 "starting the authorization code flow with keyboard interactive").andThen fun _ =>
  (Eff.call g.NewState Event.NewState).andThen fun r =>
  match r with
  | .error err => Eff.ret (none, some (xerrors.Errorf "could not generate a state" err))
  | .ok state =>
  (Eff.call g.NewNonce Event.NewNonce).andThen fun r =>
  match r with
  | .error err => Eff.ret (none, some (xerrors.Errorf "could not generate a nonce" err))
  | .ok nonce =>
  (Eff.call client.SupportedPKCEMethods Event.SupportedPKCEMethods).andThen fun methods =>
  (Eff.call (g.New methods) (Event.PKCENew methods)).andThen fun r =>
  match r with
  | .error err =>
    Eff.ret (none, some (xerrors.Errorf "could not generate PKCE parameters" err))
  | .ok p => authorize u ctx o client state nonce p

end Keyboard

end authcode

/-! ## The runs of `Keyboard.Do` -/

namespace authcode

/-- The first line `Keyboard.Do` logs. -/
def startedMsg : String := "starting the authorization code flow with keyboard interactive"

/-- The line `Keyboard.Do` logs before the exchange. -/
def exchangingMsg : String := "exchanging the code and token"

/-- The last line `Keyboard.Do` logs. -/
def finishedMsg : String := "finished the authorization code flow with keyboard interactive"

/-- The text shown before the authorization URL. -/
def visitMsg : String := "Please visit the following URL in your browser: "

/-- The input `Keyboard.Do` builds for `client.GetAuthCodeURL`. -/
def urlInput (o : KeyboardOption) (state nonce : String) (p : pkce.Params) :
    oidcclient.AuthCodeURLInput :=
  { State := state, Nonce := nonce, PKCEParams := p, RedirectURI := oobRedirectURI,
    AuthRequestExtraParams := o.AuthRequestExtraParams }

/-- The input `Keyboard.Do` builds for `client.ExchangeAuthCode`. -/
def exchangeInput (nonce : String) (p : pkce.Params) (code : String) :
    oidcclient.ExchangeAuthCodeInput :=
  { Code := code, PKCEParams := p, Nonce := nonce, RedirectURI := oobRedirectURI }

/-- The six ways a run of `Keyboard.Do` can go, each with the value returned
and the log of the calls made. -/
inductive Outcome (ctx : Context) (o : KeyboardOption) : Result → List Event → Prop where
  | stateFailed (e : Error) :
    Outcome ctx o (none, some (xerrors.Errorf "could not generate a state" e))
      [Event.Infof 1 startedMsg, Event.NewState (.error e)]
  | nonceFailed (state : String) (e : Error) :
    Outcome ctx o (none, some (xerrors.Errorf "could not generate a nonce" e))
      [Event.Infof 1 startedMsg, Event.NewState (.ok state), Event.NewNonce (.error e)]
  | pkceFailed (state nonce : String) (ms : List pkce.Method) (e : Error) :
    Outcome ctx o (none, some (xerrors.Errorf "could not generate PKCE parameters" e))
      [Event.Infof 1 startedMsg, Event.NewState (.ok state), Event.NewNonce (.ok nonce),
       Event.SupportedPKCEMethods ms, Event.PKCENew ms (.error e)]
  | readFailed (state nonce : String) (ms : List pkce.Method) (p : pkce.Params)
      (url : String) (e : Error) :
    Outcome ctx o (none, some (xerrors.Errorf "could not read an authorization code" e))
      [Event.Infof 1 startedMsg, Event.NewState (.ok state), Event.NewNonce (.ok nonce),
       Event.SupportedPKCEMethods ms, Event.PKCENew ms (.ok p),
       Event.GetAuthCodeURL (urlInput o state nonce p) url, Event.Printf (visitMsg ++ url),
       Event.ReadString keyboardPrompt (.error e)]
  | exchangeFailed (state nonce : String) (ms : List pkce.Method) (p : pkce.Params)
      (url code : String) (e : Error) :
    Outcome ctx o (none, some (xerrors.Errorf "could not exchange the authorization code" e))
      [Event.Infof 1 startedMsg, Event.NewState (.ok state), Event.NewNonce (.ok nonce),
       Event.SupportedPKCEMethods ms, Event.PKCENew ms (.ok p),
       Event.GetAuthCodeURL (urlInput o state nonce p) url, Event.Printf (visitMsg ++ url),
       Event.ReadString keyboardPrompt (.ok code), Event.Infof 1 exchangingMsg,
       Event.ExchangeAuthCode ctx (exchangeInput nonce p code) (.error e)]
  | finished (state nonce : String) (ms : List pkce.Method) (p : pkce.Params)
      (url code : String) (ts : oidc.TokenSet) :
    Outcome ctx o
      (some { IDToken := ts.IDToken, IDTokenClaims := ts.IDTokenClaims,
              RefreshToken := ts.RefreshToken }, none)
      [Event.Infof 1 startedMsg, Event.NewState (.ok state), Event.NewNonce (.ok nonce),
       Event.SupportedPKCEMethods ms, Event.PKCENew ms (.ok p),
       Event.GetAuthCodeURL (urlInput o state nonce p) url, Event.Printf (visitMsg ++ url),
       Event.ReadString keyboardPrompt (.ok code), Event.Infof 1 exchangingMsg,
       Event.ExchangeAuthCode ctx (exchangeInput nonce p code) (.ok ts),
       Event.Infof 1 finishedMsg]

end authcode

/-! ## Reading the log -/

/-- The capability behind a logged call. -/
inductive CallKind where
  | Infof
  | Printf
  | NewState
  | NewNonce
  | SupportedPKCEMethods
  | PKCENew
  | GetAuthCodeURL
  | ReadString
  | ExchangeAuthCode
  | Now
  | FactoryNew
  | Refresh
  | Flow
  | FlowReturned
  deriving DecidableEq, Repr

namespace Event

/-- The capability an event is a call of. -/
def kind : Event → CallKind
  | Infof _ _ => .Infof
  | Printf _ => .Printf
  | NewState _ => .NewState
  | NewNonce _ => .NewNonce
  | SupportedPKCEMethods _ => .SupportedPKCEMethods
  | PKCENew _ _ => .PKCENew
  | GetAuthCodeURL _ _ => .GetAuthCodeURL
  | ReadString _ _ => .ReadString
  | ExchangeAuthCode _ _ _ => .ExchangeAuthCode
  | Now _ => .Now
  | FactoryNew _ _ _ => .FactoryNew
  | Refresh _ _ _ => .Refresh
  | Flow _ => .Flow
  | FlowReturned _ _ => .FlowReturned

/-- The error of an `Except` result, `none` for a success. -/
def errOf {α : Type} : Except Error α → Option Error
  | .error e => some e
  | .ok _ => none

/-- The non-nil error a call returned, `none` when it returned no error (or
cannot return one). -/
def err : Event → Option Error
  | NewState r => errOf r
  | NewNonce r => errOf r
  | PKCENew _ r => errOf r
  | ReadString _ r => errOf r
  | ExchangeAuthCode _ _ r => errOf r
  | FactoryNew _ _ e => e
  | Refresh _ _ r => errOf r
  | FlowReturned _ r => r.2
  | _ => none

/-- Whether the call returned a non-nil error. -/
def failed (e : Event) : Bool := e.err.isSome

/-- Whether the event is a line of the leveled debug log, `Logger.V(n).Infof`. -/
def isInfof (e : Event) : Bool := e.kind = CallKind.Infof

end Event

namespace authcode

/-- The steps of the keyboard flow, in the order of specification §4.3. -/
def steps : List CallKind :=
  [.NewState, .NewNonce, .SupportedPKCEMethods, .PKCENew, .GetAuthCodeURL, .Printf,
   .ReadString, .ExchangeAuthCode]

/-- The message that names the stage of each fallible step of the keyboard
flow in the error `Keyboard.Do` returns, as the specification lists them. -/
def stageOf : CallKind → Option String
  | .NewState => some "could not generate a state"
  | .NewNonce => some "could not generate a nonce"
  | .PKCENew => some "could not generate PKCE parameters"
  | .ReadString => some "could not read an authorization code"
  | .ExchangeAuthCode => some "could not exchange the authorization code"
  | _ => none

end authcode

/-! ## The authentication use case (`pkg/usecases/authentication`)

Only the test of this package is among the source files
(`authentication_test.go`); the use case itself is embedded from the
specification, §3 and §4.1, with the names the test uses. -/

/-- Modelled from the spec: the type `authcode.BrowserOption` (§6:
`BrowserOption{BindAddresses, SkipOpenBrowser, AuthenticationTimeout}`), with
the field names of authentication_test.go, lines 120-124; the timeout is in
seconds. -/
structure authcode.BrowserOption where
  BindAddress : List String
  SkipOpenBrowser : Bool
  AuthenticationTimeout : Nat
  deriving DecidableEq, Repr

/-- Modelled from the spec: the browser flow `authcode.Browser`, whose source
is missing; §4.4 gives it as an external contract, so its `Do` is a
capability that returns Go's pair `(*oidc.TokenSet, error)`. -/
structure authcode.Browser (σ : Type) where
  Do : Context → authcode.BrowserOption → oidcclient.Interface σ → σ → authcode.Result × σ

/-- Modelled from the spec: the type `ropc.Option` (§6:
`ROPCOption{Username, Password}`). -/
structure ropc.Option where
  Username : String
  Password : String
  deriving DecidableEq, Repr

/-- Modelled from the spec: the flow `ropc.ROPC`, whose source is missing;
§4.5 gives it as an external contract, so its `Do` is a capability that
returns Go's pair `(*oidc.TokenSet, error)`. -/
structure ropc.ROPC (σ : Type) where
  Do : Context → ropc.Option → oidcclient.Interface σ → σ → authcode.Result × σ

/-- Modelled from the spec: the factory capability of §6,
`New(ctx, Provider) -> OIDCClient`, which can fail. -/
structure oidcclient.FactoryInterface (σ : Type) where
  New : Context → oidc.Provider → σ → Except Error (oidcclient.Interface σ) × σ

/-- Modelled from the spec: the clock capability of §6, `Now() -> instant`,
in seconds since the Unix epoch. -/
structure clock.Interface (σ : Type) where
  Now : σ → Int × σ

namespace authentication

/-- Modelled from the spec: the type `GrantOptionSet` (§3), a bag of at most
one configured strategy option, `none` for a field that is not set. -/
structure GrantOptionSet where
  AuthCodeBrowserOption : Option authcode.BrowserOption
  AuthCodeKeyboardOption : Option authcode.KeyboardOption
  ROPCOption : Option ropc.Option
  deriving DecidableEq, Repr

/-- The flows for which an option is set, in the order Browser, Keyboard,
ROPC. -/
def GrantOptionSet.configured (o : GrantOptionSet) : List FlowKind :=
  (if o.AuthCodeBrowserOption.isSome then [FlowKind.Browser] else []) ++
  (if o.AuthCodeKeyboardOption.isSome then [FlowKind.Keyboard] else []) ++
  (if o.ROPCOption.isSome then [FlowKind.ROPC] else [])

/-- Modelled from the spec: the type `Input` (§3),
`{Provider, GrantOptionSet, CachedTokenSet: optional TokenSet}`. -/
structure Input where
  Provider : oidc.Provider
  GrantOptionSet : GrantOptionSet
  CachedTokenSet : Option oidc.TokenSet
  deriving DecidableEq, Repr

/-- Modelled from the spec: the type `Output` (§3),
`{TokenSet, AlreadyHasValidIDToken: bool}`. -/
structure Output where
  AlreadyHasValidIDToken : Bool
  TokenSet : oidc.TokenSet
  deriving DecidableEq, Repr

/-- Modelled from the spec: the struct `Authentication`, the orchestrator of
§4.1 with its collaborators (§9: every collaborator is a capability given at
construction); the field names are those of authentication_test.go. -/
structure Authentication (σ : Type) where
  OIDCClient : oidcclient.FactoryInterface σ
  Logger : logger.Interface σ
  Clock : clock.Interface σ
  AuthCodeBrowser : authcode.Browser σ
  AuthCodeKeyboard : authcode.Keyboard σ
  ROPC : ropc.ROPC σ

/-- Modelled from the spec: what `Authentication.Do` returns (§4.1:
`Do(ctx, Input) -> (Output, error)`), Go's pair `(*Output, error)` of
authentication_test.go, `none` for `nil`. -/
abbrev Result := Option Output × Option Error

/-- Modelled from the spec: the message that names each strategy in the error
of a failed flow (§4.1: "wrapped with enough context to identify which
strategy failed"; the specification fixes no wording). -/
def strategyStage : FlowKind → String
  | .Browser => "authcode-browser error"
  | .Keyboard => "authcode-keyboard error"
  | .ROPC => "ropc error"

namespace Authentication

variable {σ : Type}

/-- Modelled from the spec: a line of the debug log (§4.1, side effects:
"progress/debug log lines at each transition"), the call
`u.Logger.V(level).Infof(msg)`. -/
def Infof (u : Authentication σ) (level : Nat) (msg : String) : Eff σ Unit :=
  Eff.act (u.Logger.Infof level msg) (Event.Infof level msg)

/-- Modelled from the spec: the construction of an OIDC client for the
provider (§4.1), by the factory capability. -/
def newClient (u : Authentication σ) (ctx : Context) (provider : oidc.Provider) :
    Eff σ (Except Error (oidcclient.Interface σ)) := fun s =>
  let r := u.OIDCClient.New ctx provider s
  ⟨r.1, r.2, [Event.FactoryNew ctx provider (Event.errOf r.1)]⟩

/-- Modelled from the spec: the end of §4.1 step 3, "return its result
verbatim (with `AlreadyHasValidIDToken: false`) or propagate its error,
wrapped with enough context to identify which strategy failed".  A flow that
returns neither a token set nor an error gives neither. -/
def finish (k : FlowKind) (r : authcode.Result) : Result :=
  match r with
  | (_, some err) => (none, some (xerrors.Errorf (strategyStage k) err))
  | (some tokenSet, none) =>
    (some { AlreadyHasValidIDToken := false, TokenSet := tokenSet }, none)
  | (none, none) => (none, none)

/-- Modelled from the spec: the run of the selected strategy `k` (§4.1 step
3); the dispatch is logged (§4.1, side effects), the call of the flow and its
return are marked in the log of calls. -/
def runFlow (u : Authentication σ) (k : FlowKind) (flow : Eff σ authcode.Result) :
    Eff σ Result :=
  (u.Infof 1 "flow dispatch").andThen fun _ =>
  (Eff.mark (Event.Flow k)).andThen fun _ =>
  flow.andThen fun r =>
  (Eff.mark (Event.FlowReturned k r)).andThen fun _ =>
  Eff.ret (finish k r)

/-- Modelled from the spec: §4.1 step 3, the dispatch "to exactly one
interactive strategy selected by which field of `GrantOptionSet` is populated
— Browser, Keyboard, or ROPC".  When more than one is set the first in that
order is taken (§3: "caller error or deterministic priority").  When none is
set: after a failed refresh "the refresh error is the final error" (§4.6),
otherwise it is a caller-configuration error (§4.1).  The keyboard strategy is
`authcode.Keyboard.Do`; the two others are capabilities. -/
def dispatch (g : Generators σ) (u : Authentication σ) (ctx : Context) (i : Input)
    (client : oidcclient.Interface σ) (refreshErr : Option Error) : Eff σ Result :=
  match i.GrantOptionSet.AuthCodeBrowserOption, i.GrantOptionSet.AuthCodeKeyboardOption,
    i.GrantOptionSet.ROPCOption with
  | some o, _, _ =>
    u.runFlow FlowKind.Browser (Eff.quiet (u.AuthCodeBrowser.Do ctx o client))
  | none, some o, _ =>
    u.runFlow FlowKind.Keyboard (authcode.Keyboard.Do g u.AuthCodeKeyboard ctx o client)
  | none, none, some o =>
    u.runFlow FlowKind.ROPC (Eff.quiet (u.ROPC.Do ctx o client))
  | none, none, none =>
    match refreshErr with
    | some err => Eff.ret (none, some (xerrors.Errorf "could not refresh the token" err))
    | none => Eff.ret (none, some (xerrors.New "no grant option is configured"))

/-- Modelled from the spec: §4.1 step 3 when no client was built yet,
"constructing an OIDC Client for `Provider` and invoking that strategy"; a
failure of the construction "is fatal and returned immediately, before any
flow runs". -/
def authenticate (g : Generators σ) (u : Authentication σ) (ctx : Context) (i : Input) :
    Eff σ Result :=
  (u.newClient ctx i.Provider).andThen fun r =>
  match r with
  | .error err => Eff.ret (none, some (xerrors.Errorf "oidc error" err))
  | .ok client => dispatch g u ctx i client none

/-- Modelled from the spec: §4.1 step 2, "construct an OIDC Client for
`Provider` and call `Refresh(ctx, refreshToken)`.  On success, return the new
`TokenSet` with `AlreadyHasValidIDToken: false`.  On failure, fall through to
step 3 (the failure is logged, not surfaced)"; step 3 then runs with the
client built here. -/
def refresh (g : Generators σ) (u : Authentication σ) (ctx : Context) (i : Input)
    (refreshToken : String) : Eff σ Result :=
  (u.newClient ctx i.Provider).andThen fun r =>
  match r with
  | .error err => Eff.ret (none, some (xerrors.Errorf "oidc error" err))
  | .ok client =>
    (u.Infof 1 "refresh attempt").andThen fun _ =>
    (Eff.call (client.Refresh ctx refreshToken) (Event.Refresh ctx refreshToken)).andThen
      fun r =>
    match r with
    | .ok tokenSet =>
      Eff.ret (some { AlreadyHasValidIDToken := false, TokenSet := tokenSet }, none)
    | .error err =>
      (u.Infof 1 "refresh failure").andThen fun _ => dispatch g u ctx i client (some err)

/-- Modelled from the spec: the method `Authentication.Do`, whose source is
missing, after the decision algorithm of §4.1, "in order, first matching
branch wins": (1) a cached token set whose ID-token expiry is after the
clock's `Now()` plus the safety margin is returned with
`AlreadyHasValidIDToken: true`; (2) else a cached non-empty refresh token is
refreshed; (3) else one strategy is run.  The margin has no value in the
specification and is the parameter `margin`, in seconds. -/
def Do (margin : Nat) (g : Generators σ) (u : Authentication σ) (ctx : Context) (i : Input) :
    Eff σ Result :=
  match i.CachedTokenSet with
  | some cached =>
    (Eff.call u.Clock.Now Event.Now).andThen fun now =>
    if now + (margin : Int) < cached.IDTokenClaims.Expiry then
      (u.Infof 1 "cache hit").andThen fun _ =>
      Eff.ret (some { AlreadyHasValidIDToken := true, TokenSet := cached }, none)
    else if cached.RefreshToken ≠ "" then
      refresh g u ctx i cached.RefreshToken
    else
      authenticate g u ctx i
  | none => authenticate g u ctx i

/-- The flow of kind `k` as the grant options of `i` configure it: the
capability of that kind, applied to the context, to the option set for it and
to the client; `none` when no option is set for `k`.  The browser flow is
`u.AuthCodeBrowser.Do`, the keyboard flow is `authcode.Keyboard.Do` on
`u.AuthCodeKeyboard`, the password flow is `u.ROPC.Do`. -/
def flowOf (g : Generators σ) (u : Authentication σ) (ctx : Context) (i : Input)
    (client : oidcclient.Interface σ) : FlowKind → Option (Eff σ authcode.Result)
  | .Browser =>
    i.GrantOptionSet.AuthCodeBrowserOption.map fun o =>
      Eff.quiet (u.AuthCodeBrowser.Do ctx o client)
  | .Keyboard =>
    i.GrantOptionSet.AuthCodeKeyboardOption.map fun o =>
      authcode.Keyboard.Do g u.AuthCodeKeyboard ctx o client
  | .ROPC =>
    i.GrantOptionSet.ROPCOption.map fun o => Eff.quiet (u.ROPC.Do ctx o client)

end Authentication

end authentication

/-! ## A concrete scenario

The end-to-end scenario of the specification (§8): the reader returns
"AUTHCODE".  The state of the world is what the terminal shows. -/

namespace scenario

/-- The context of the call. -/
def ctx : Context := ⟨1⟩

/-- Generators that return fixed values. -/
def generators : Generators (List String) where
  NewState := fun s => (.ok "STATE", s)
  NewNonce := fun s => (.ok "NONCE", s)
  New := fun _ s => (.ok { Method := .S256, Verifier := "VERIFIER", Challenge := "CHALLENGE" }, s)

/-- The token set the provider issues. -/
def newTokens : oidc.TokenSet :=
  { IDToken := "NEW_ID_TOKEN",
    IDTokenClaims := { Subject := "YOUR_SUBJECT", Expiry := 1577937845 },
    RefreshToken := "NEW_REFRESH_TOKEN" }

/-- A client that accepts the code "AUTHCODE" only and whose `Refresh` fails. -/
def client : oidcclient.Interface (List String) where
  SupportedPKCEMethods := fun s => ([.S256], s)
  GetAuthCodeURL := fun i s => ("https://issuer.example.com/auth?state=" ++ i.State, s)
  ExchangeAuthCode := fun _ i s =>
    (if i.Code = "AUTHCODE" then .ok newTokens else .error (xerrors.New "invalid code"), s)
  Refresh := fun _ _ s => (.error (xerrors.New "token has expired"), s)

/-- A logger that prints to the terminal and drops the debug lines. -/
def log : logger.Interface (List String) where
  Printf := fun msg s => s ++ [msg]
  Infof := fun _ _ s => s

/-- The keyboard flow with a reader that returns `r`. -/
def keyboard (r : Except Error String) : authcode.Keyboard (List String) where
  Reader := { ReadString := fun _ s => (r, s) }
  Logger := log

/-- The option of the scenario, with one extra parameter. -/
def option : authcode.KeyboardOption := { AuthRequestExtraParams := [("prompt", "login")] }

/-- The run of the scenario in which the user enters "AUTHCODE". -/
def run : Ran (List String) authcode.Result :=
  authcode.Keyboard.Do generators (keyboard (.ok "AUTHCODE")) ctx option client []

/-- The run of the scenario in which the read of the code fails. -/
def runNoInput : Ran (List String) authcode.Result :=
  authcode.Keyboard.Do generators (keyboard (.error (xerrors.New "EOF"))) ctx option client []

/-- The provider of authentication_test.go, lines 24-28. -/
def dummyProvider : oidc.Provider :=
  { IssuerURL := "https://issuer.example.com", ClientID := "YOUR_CLIENT_ID",
    ClientSecret := "YOUR_CLIENT_SECRET" }

/-- The expiry of the cached ID token, 2020-01-02T03:04:05Z
(authentication_test.go, line 23), in seconds since the Unix epoch. -/
def expiryTime : Int := 1577934245

/-- The cached token set of authentication_test.go, with the refresh token
`refreshToken`. -/
def cached (refreshToken : String) : oidc.TokenSet :=
  { IDToken := "ISSUED_ID_TOKEN",
    IDTokenClaims := { Subject := "YOUR_SUBJECT", Expiry := expiryTime },
    RefreshToken := refreshToken }

/-- A factory that fails whenever it is called. -/
def noFactory : oidcclient.FactoryInterface (List String) where
  New := fun _ _ s => (.error (xerrors.New "no OIDC client is configured"), s)

/-- A factory that returns `client`. -/
def factory : oidcclient.FactoryInterface (List String) where
  New := fun _ _ s => (.ok client, s)

/-- The use case with the clock fixed at `now`; the browser flow returns new
tokens, the password flow checks the credentials. -/
def auth (now : Int) (f : oidcclient.FactoryInterface (List String)) :
    authentication.Authentication (List String) where
  OIDCClient := f
  Logger := log
  Clock := { Now := fun s => (now, s) }
  AuthCodeBrowser := { Do := fun _ _ _ s => ((some newTokens, none), s) }
  AuthCodeKeyboard := keyboard (.ok "AUTHCODE")
  ROPC := { Do := fun _ o _ s =>
    (if o.Username = "USER" ∧ o.Password = "PASS" then (some newTokens, none)
     else (none, some (xerrors.New "invalid credentials")), s) }

/-- No grant option. -/
def noGrant : authentication.GrantOptionSet :=
  { AuthCodeBrowserOption := none, AuthCodeKeyboardOption := none, ROPCOption := none }

/-- The browser option of authentication_test.go, lines 120-124. -/
def browserGrant : authentication.GrantOptionSet :=
  { AuthCodeBrowserOption :=
      some { BindAddress := ["127.0.0.1:8000"], SkipOpenBrowser := true,
             AuthenticationTimeout := 10 },
    AuthCodeKeyboardOption := none, ROPCOption := none }

/-- A password option with a password the provider refuses. -/
def badPasswordGrant : authentication.GrantOptionSet :=
  { AuthCodeBrowserOption := none, AuthCodeKeyboardOption := none,
    ROPCOption := some { Username := "USER", Password := "WRONG" } }

/-- The test case HasValidIDToken: the clock is one hour before the expiry and
no OIDC client can be built. -/
def runValid : Ran (List String) authentication.Result :=
  authentication.Authentication.Do 10 generators (auth (expiryTime - 3600) noFactory) ctx
    { Provider := dummyProvider, GrantOptionSet := noGrant, CachedTokenSet := some (cached "") }
    []

/-- The test case HasExpiredRefreshToken/Browser: the clock is one hour after
the expiry and the refresh fails. -/
def runExpired : Ran (List String) authentication.Result :=
  authentication.Authentication.Do 10 generators (auth (expiryTime + 3600) factory) ctx
    { Provider := dummyProvider, GrantOptionSet := browserGrant,
      CachedTokenSet := some (cached "EXPIRED_REFRESH_TOKEN") } []

/-- As `runExpired`, with the password flow and a wrong password. -/
def runBadPassword : Ran (List String) authentication.Result :=
  authentication.Authentication.Do 10 generators (auth (expiryTime + 3600) factory) ctx
    { Provider := dummyProvider, GrantOptionSet := badPasswordGrant,
      CachedTokenSet := some (cached "EXPIRED_REFRESH_TOKEN") } []

end scenario

/-! ## Lemmas -/

namespace authcode

namespace Keyboard

variable {σ : Type}

/-- Every run of `Keyboard.Do` is one of the six outcomes. -/
theorem Do_outcome (g : Generators σ) (u : Keyboard σ) (ctx : Context) (o : KeyboardOption)
    (client : oidcclient.Interface σ) (s : σ) :
    Outcome ctx o (Do g u ctx o client s).val (Do g u ctx o client s).log := by
  rcases h1 : g.NewState
    (u.Logger.Infof 1 "starting the authorization code flow with keyboard interactive" s)
    with ⟨e | state, s1⟩
  · simp [Do, Eff.andThen, Eff.call, Eff.act, Eff.ret, Infof, h1]
    exact Outcome.stateFailed e
  rcases h2 : g.NewNonce s1 with ⟨e | nonce, s2⟩
  · simp [Do, Eff.andThen, Eff.call, Eff.act, Eff.ret, Infof, h1, h2]
    exact Outcome.nonceFailed state e
  rcases h3 : client.SupportedPKCEMethods s2 with ⟨ms, s3⟩
  rcases h4 : g.New ms s3 with ⟨e | p, s4⟩
  · simp [Do, Eff.andThen, Eff.call, Eff.act, Eff.ret, Infof, h1, h2, h3, h4]
    exact Outcome.pkceFailed state nonce ms e
  rcases h5 : client.GetAuthCodeURL
    { State := state, Nonce := nonce, PKCEParams := p, RedirectURI := oobRedirectURI,
      AuthRequestExtraParams := o.AuthRequestExtraParams } s4 with ⟨url, s5⟩
  rcases h6 : u.Reader.ReadString keyboardPrompt
    (u.Logger.Printf ("Please visit the following URL in your browser: " ++ url) s5)
    with ⟨e | code, s6⟩
  · simp [Do, authorize, Eff.andThen, Eff.call, Eff.act, Eff.ret, Infof, Printf,
      h1, h2, h3, h4, h5, h6]
    exact Outcome.readFailed state nonce ms p url e
  rcases h7 : client.ExchangeAuthCode ctx
    { Code := code, PKCEParams := p, Nonce := nonce, RedirectURI := oobRedirectURI }
    (u.Logger.Infof 1 "exchanging the code and token" s6) with ⟨e | ts, s7⟩
  · simp [Do, authorize, exchange, Eff.andThen, Eff.call, Eff.act, Eff.ret, Infof, Printf,
      h1, h2, h3, h4, h5, h6, h7]
    exact Outcome.exchangeFailed state nonce ms p url code e
  · simp [Do, authorize, exchange, Eff.andThen, Eff.call, Eff.act, Eff.ret, Infof, Printf,
      h1, h2, h3, h4, h5, h6, h7]
    exact Outcome.finished state nonce ms p url code ts

/-! ## The claims about `Keyboard.Do` -/

/-- C1: in every run of `Keyboard.Do` that reaches the code exchange, the
nonce and the PKCE parameters given to `client.ExchangeAuthCode` are those
given to `client.GetAuthCodeURL` in that run, and they are the values that
`oidc.NewNonce` and `pkce.New` returned in that run; each of the two
generators was called exactly once, so no fresh value can stand in between. -/
theorem Do_exchange_same_nonce_and_pkce (g : Generators σ) (u : Keyboard σ) (ctx : Context)
    (o : KeyboardOption) (client : oidcclient.Interface σ) (s : σ)
    (c : Context) (i : oidcclient.ExchangeAuthCodeInput) (r : Except Error oidc.TokenSet)
    (h : Event.ExchangeAuthCode c i r ∈ (Do g u ctx o client s).log) :
    (∃ j url ms, Event.GetAuthCodeURL j url ∈ (Do g u ctx o client s).log ∧
      j.Nonce = i.Nonce ∧ j.PKCEParams = i.PKCEParams ∧
      Event.NewNonce (.ok i.Nonce) ∈ (Do g u ctx o client s).log ∧
      Event.PKCENew ms (.ok i.PKCEParams) ∈ (Do g u ctx o client s).log) ∧
    ((Do g u ctx o client s).log.filter fun e => e.kind = CallKind.NewNonce).length = 1 ∧
    ((Do g u ctx o client s).log.filter fun e => e.kind = CallKind.PKCENew).length = 1 ∧
    ((Do g u ctx o client s).log.filter fun e => e.kind = CallKind.GetAuthCodeURL).length = 1 ∧
    ((Do g u ctx o client s).log.filter fun e => e.kind = CallKind.ExchangeAuthCode).length
      = 1 := by
  have H := Do_outcome g u ctx o client s
  revert h
  generalize (Do g u ctx o client s).val = v at H ⊢
  generalize (Do g u ctx o client s).log = l at H ⊢
  cases H <;> simp [Event.kind, urlInput, exchangeInput]
  all_goals
    rintro rfl rfl rfl
    simp

/-- C2: when no call made in a run of `Keyboard.Do` fails (state, nonce and
PKCE generation, the read of the code and the exchange all succeed), the run
reaches `client.ExchangeAuthCode`, and `Do` returns a nil error and a token
set whose `IDToken`, `IDTokenClaims` and `RefreshToken` are those of the
token set the exchange returned. -/
theorem Do_returns_exchanged_tokens (g : Generators σ) (u : Keyboard σ) (ctx : Context)
    (o : KeyboardOption) (client : oidcclient.Interface σ) (s : σ)
    (h : ∀ e ∈ (Do g u ctx o client s).log, e.err = none) :
    ∃ i ts got, Event.ExchangeAuthCode ctx i (.ok ts) ∈ (Do g u ctx o client s).log ∧
      (Do g u ctx o client s).val = (some got, none) ∧
      got.IDToken = ts.IDToken ∧ got.IDTokenClaims = ts.IDTokenClaims ∧
      got.RefreshToken = ts.RefreshToken := by
  have H := Do_outcome g u ctx o client s
  revert h
  generalize (Do g u ctx o client s).val = v at H ⊢
  generalize (Do g u ctx o client s).log = l at H ⊢
  cases H <;> simp [Event.err, Event.errOf]
  exact ⟨_, _, ⟨rfl, rfl⟩, rfl, rfl, rfl⟩

/-- C3: `Keyboard.Do` returns a non-nil error exactly when one of the calls
it made failed; a failing call is one of the five fallible steps; and when
the error is non-nil the token set is nil and the error is
`xerrors.Errorf(stage + ": %w", cause)`, where `cause` is the error of the
first failing call of the run and `stage` the message of that step: its text
starts with the stage and it wraps `cause`. -/
theorem Do_error_iff_step_failed (g : Generators σ) (u : Keyboard σ) (ctx : Context)
    (o : KeyboardOption) (client : oidcclient.Interface σ) (s : σ) :
    ((Do g u ctx o client s).val.2 ≠ none ↔
      ∃ e ∈ (Do g u ctx o client s).log, e.err ≠ none) ∧
    (∀ e ∈ (Do g u ctx o client s).log, e.err ≠ none → stageOf e.kind ≠ none) ∧
    (∀ err, (Do g u ctx o client s).val.2 = some err →
      (Do g u ctx o client s).val.1 = none ∧
      ∃ e stage cause,
        (Do g u ctx o client s).log.find? (fun x => x.failed) = some e ∧
        e.err = some cause ∧ stageOf e.kind = some stage ∧
        err = xerrors.Errorf stage cause ∧
        err.Unwrap = some cause ∧
        err.Message = stage ++ ": " ++ cause.Message) := by
  have H := Do_outcome g u ctx o client s
  generalize (Do g u ctx o client s).val = v at H ⊢
  generalize (Do g u ctx o client s).log = l at H ⊢
  cases H <;>
    simp [Event.err, Event.errOf, Event.failed, Event.kind, stageOf, xerrors.Errorf,
      Error.Unwrap, Error.Message]

/-- C4: in every run of `Keyboard.Do` the reader is asked with the prompt
"Enter code: ", and when it returns a string, the `Code` given to
`client.ExchangeAuthCode` is that string, whatever it is. -/
theorem Do_exchanges_the_code_read (g : Generators σ) (u : Keyboard σ) (ctx : Context)
    (o : KeyboardOption) (client : oidcclient.Interface σ) (s : σ)
    (question : String) (r : Except Error String)
    (h : Event.ReadString question r ∈ (Do g u ctx o client s).log) :
    question = "Enter code: " ∧
    ∀ code, r = .ok code →
      (∃ i x, Event.ExchangeAuthCode ctx i x ∈ (Do g u ctx o client s).log ∧ i.Code = code) ∧
      ∀ c i x, Event.ExchangeAuthCode c i x ∈ (Do g u ctx o client s).log → i.Code = code := by
  have H := Do_outcome g u ctx o client s
  revert h
  generalize (Do g u ctx o client s).val = v at H ⊢
  generalize (Do g u ctx o client s).log = l at H ⊢
  cases H <;> simp [keyboardPrompt, exchangeInput]
  all_goals
    rintro rfl rfl
    simp
  all_goals
    rintro c i x rfl rfl rfl
    rfl

/-- C5: in every run of `Keyboard.Do`, whatever the option and the client,
the `RedirectURI` given to `client.GetAuthCodeURL` and the one given to
`client.ExchangeAuthCode` are the out-of-band sentinel
"urn:ietf:wg:oauth:2.0:oob". -/
theorem Do_redirect_uri_is_out_of_band (g : Generators σ) (u : Keyboard σ) (ctx : Context)
    (o : KeyboardOption) (client : oidcclient.Interface σ) (s : σ) :
    (∀ j url, Event.GetAuthCodeURL j url ∈ (Do g u ctx o client s).log →
      j.RedirectURI = "urn:ietf:wg:oauth:2.0:oob") ∧
    (∀ c i r, Event.ExchangeAuthCode c i r ∈ (Do g u ctx o client s).log →
      i.RedirectURI = "urn:ietf:wg:oauth:2.0:oob") := by
  have H := Do_outcome g u ctx o client s
  generalize (Do g u ctx o client s).val = v at H ⊢
  generalize (Do g u ctx o client s).log = l at H ⊢
  cases H <;> simp [urlInput, exchangeInput, oobRedirectURI]
  all_goals
    intros
    subst_vars
    rfl

/-- C6, as amended: in every run of `Keyboard.Do` the PKCE parameters that
`pkce.New` returned, verifier included, are given to the OIDC client both in
the input of `client.GetAuthCodeURL` and in the input of
`client.ExchangeAuthCode`; the flow gives them to no other capability: the
reader gets the fixed prompt, the debug log gets fixed texts, and the text
displayed is a fixed message followed by the URL the client returned. -/
theorem Do_verifier_goes_to_the_client_only (g : Generators σ) (u : Keyboard σ)
    (ctx : Context) (o : KeyboardOption) (client : oidcclient.Interface σ) (s : σ)
    (ms : List pkce.Method) (p : pkce.Params)
    (h : Event.PKCENew ms (.ok p) ∈ (Do g u ctx o client s).log) :
    (∃ j url, Event.GetAuthCodeURL j url ∈ (Do g u ctx o client s).log) ∧
    (∀ j url, Event.GetAuthCodeURL j url ∈ (Do g u ctx o client s).log →
      j.PKCEParams = p ∧ j.PKCEParams.Verifier = p.Verifier) ∧
    (∀ c i r, Event.ExchangeAuthCode c i r ∈ (Do g u ctx o client s).log →
      i.PKCEParams = p ∧ i.PKCEParams.Verifier = p.Verifier) ∧
    (∀ q r, Event.ReadString q r ∈ (Do g u ctx o client s).log → q = keyboardPrompt) ∧
    (∀ n msg, Event.Infof n msg ∈ (Do g u ctx o client s).log →
      msg = startedMsg ∨ msg = exchangingMsg ∨ msg = finishedMsg) ∧
    (∀ msg, Event.Printf msg ∈ (Do g u ctx o client s).log →
      ∃ j url, Event.GetAuthCodeURL j url ∈ (Do g u ctx o client s).log ∧
        msg = visitMsg ++ url) := by
  have H := Do_outcome g u ctx o client s
  revert h
  generalize (Do g u ctx o client s).val = v at H ⊢
  generalize (Do g u ctx o client s).log = l at H ⊢
  cases H <;> simp [urlInput, exchangeInput, and_assoc]
  all_goals
    rintro rfl rfl
    simp
  all_goals
    refine ⟨?_, ?_⟩
    · rintro c i r rfl rfl rfl
      exact ⟨rfl, rfl⟩
    · intro n msg h
      tauto

/-- C7: in every run of `Keyboard.Do` that reaches the URL-building step,
the input given to `client.GetAuthCodeURL` carries the option's
`AuthRequestExtraParams` as they are, and the `State` that `oidc.NewState`
returned in that run (its only call). -/
theorem Do_forwards_extra_params_and_state (g : Generators σ) (u : Keyboard σ)
    (ctx : Context) (o : KeyboardOption) (client : oidcclient.Interface σ) (s : σ)
    (j : oidcclient.AuthCodeURLInput) (url : String)
    (h : Event.GetAuthCodeURL j url ∈ (Do g u ctx o client s).log) :
    j.AuthRequestExtraParams = o.AuthRequestExtraParams ∧
    Event.NewState (.ok j.State) ∈ (Do g u ctx o client s).log ∧
    ((Do g u ctx o client s).log.filter fun e => e.kind = CallKind.NewState).length = 1 := by
  have H := Do_outcome g u ctx o client s
  revert h
  generalize (Do g u ctx o client s).val = v at H ⊢
  generalize (Do g u ctx o client s).log = l at H ⊢
  cases H <;> simp [urlInput, Event.kind]
  all_goals
    rintro rfl rfl
    simp

/-- C10: `Keyboard.Do` is a single pass.  Leaving the lines of the debug log
aside, the calls of a run are, in order, an initial part of
`oidc.NewState`, `oidc.NewNonce`, `client.SupportedPKCEMethods`, `pkce.New`,
`client.GetAuthCodeURL`, the display, `Reader.ReadString`,
`client.ExchangeAuthCode`, each at most once; every call before the last one
succeeded and a failing call is the last call of the run, so the run stops at
the first failure (after a failed generation there is no URL, no read and no
exchange; after a failed read no exchange), and a run without a failure makes
them all; `pkce.New` gets the methods `client.SupportedPKCEMethods`
returned, and the display shows the URL `client.GetAuthCodeURL` returned. -/
theorem Do_single_pass (g : Generators σ) (u : Keyboard σ) (ctx : Context)
    (o : KeyboardOption) (client : oidcclient.Interface σ) (s : σ) :
    (((Do g u ctx o client s).log.filter fun e => !e.isInfof).map Event.kind <+: steps) ∧
    (((Do g u ctx o client s).log.filter fun e => !e.isInfof).map Event.kind).Nodup ∧
    (∀ e ∈ ((Do g u ctx o client s).log.filter fun e => !e.isInfof).dropLast,
      e.failed = false) ∧
    ((∀ e ∈ (Do g u ctx o client s).log, e.failed = false) →
      ((Do g u ctx o client s).log.filter fun e => !e.isInfof).map Event.kind = steps) ∧
    (∀ e ∈ (Do g u ctx o client s).log, e.failed = true →
      (Do g u ctx o client s).log.getLast? = some e) ∧
    (∀ e ∈ (Do g u ctx o client s).log, e.failed = true →
      e.kind = CallKind.NewState ∨ e.kind = CallKind.NewNonce ∨ e.kind = CallKind.PKCENew →
      ∀ x ∈ (Do g u ctx o client s).log,
        x.kind ≠ CallKind.GetAuthCodeURL ∧ x.kind ≠ CallKind.ReadString ∧
        x.kind ≠ CallKind.ExchangeAuthCode) ∧
    (∀ e ∈ (Do g u ctx o client s).log, e.failed = true → e.kind = CallKind.ReadString →
      ∀ x ∈ (Do g u ctx o client s).log, x.kind ≠ CallKind.ExchangeAuthCode) ∧
    (∀ ms r, Event.PKCENew ms r ∈ (Do g u ctx o client s).log →
      Event.SupportedPKCEMethods ms ∈ (Do g u ctx o client s).log) ∧
    (∀ msg, Event.Printf msg ∈ (Do g u ctx o client s).log →
      ∃ j url, Event.GetAuthCodeURL j url ∈ (Do g u ctx o client s).log ∧
        msg = "Please visit the following URL in your browser: " ++ url) := by
  have H := Do_outcome g u ctx o client s
  generalize (Do g u ctx o client s).val = v at H ⊢
  generalize (Do g u ctx o client s).log = l at H ⊢
  cases H <;>
    simp [Event.isInfof, Event.kind, Event.failed, Event.err, Event.errOf, steps, visitMsg,
      List.dropLast, and_assoc]

end Keyboard

end authcode

/-! ## Lemmas about the dispatch -/

namespace authentication.Authentication

variable {σ : Type}

/-- A run of `Keyboard.Do` calls neither the factory, nor `Refresh`, nor a
flow. -/
theorem keyboard_log_kinds (g : Generators σ) (u : authcode.Keyboard σ) (ctx : Context)
    (o : authcode.KeyboardOption) (client : oidcclient.Interface σ) (s : σ) :
    ∀ e ∈ (authcode.Keyboard.Do g u ctx o client s).log,
      e.kind ≠ CallKind.Refresh ∧ e.kind ≠ CallKind.Flow ∧ e.kind ≠ CallKind.FlowReturned := by
  have H := authcode.Keyboard.Do_outcome g u ctx o client s
  generalize (authcode.Keyboard.Do g u ctx o client s).val = v at H ⊢
  generalize (authcode.Keyboard.Do g u ctx o client s).log = l at H ⊢
  cases H <;> simp [Event.kind]

/-- With exactly one grant option set, for the kind `k`, the dispatch is the
run of the flow configured for `k`, and that flow calls neither `Refresh` nor a
flow. -/
theorem dispatch_one (g : Generators σ) (u : Authentication σ) (ctx : Context) (i : Input)
    (client : oidcclient.Interface σ) (refreshErr : Option Error) (k : FlowKind)
    (hk : i.GrantOptionSet.configured = [k]) :
    ∃ flow, flowOf g u ctx i client k = some flow ∧
      (∀ s, ∀ e ∈ (flow s).log,
        e.kind ≠ CallKind.Refresh ∧ e.kind ≠ CallKind.Flow ∧ e.kind ≠ CallKind.FlowReturned) ∧
      dispatch g u ctx i client refreshErr = u.runFlow k flow := by
  rcases hb : i.GrantOptionSet.AuthCodeBrowserOption with _ | ob <;>
  rcases hkb : i.GrantOptionSet.AuthCodeKeyboardOption with _ | ok <;>
  rcases hro : i.GrantOptionSet.ROPCOption with _ | oro <;>
  simp [GrantOptionSet.configured, hb, hkb, hro] at hk
  · subst hk
    refine ⟨Eff.quiet (u.ROPC.Do ctx oro client), by simp [flowOf, hro], ?_, ?_⟩
    · intro s e he
      simp [Eff.quiet] at he
    · simp [dispatch, hb, hkb, hro]
  · subst hk
    refine ⟨authcode.Keyboard.Do g u.AuthCodeKeyboard ctx ok client, by simp [flowOf, hkb],
      fun s => keyboard_log_kinds g u.AuthCodeKeyboard ctx ok client s, ?_⟩
    simp [dispatch, hb, hkb, hro]
  · subst hk
    refine ⟨Eff.quiet (u.AuthCodeBrowser.Do ctx ob client), by simp [flowOf, hb], ?_, ?_⟩
    · intro s e he
      simp [Eff.quiet] at he
    · simp [dispatch, hb, hkb, hro]

end authentication.Authentication

/-! ## The claims about `Authentication.Do` -/

namespace authentication.Authentication

variable {σ : Type}

/-- C8: for every input whose cached token set is present with an ID-token
expiry strictly after the clock's `Now()` plus the safety margin,
`Authentication.Do` returns no error and an output with
`AlreadyHasValidIDToken = true` and the cached token set, and it calls neither
the OIDC client factory, nor `Refresh`, nor any grant flow: it reads the clock
and writes to the debug log, nothing else. -/
theorem Do_valid_cached_token (margin : Nat) (g : Generators σ) (u : Authentication σ)
    (ctx : Context) (i : Input) (s : σ) (cached : oidc.TokenSet)
    (hc : i.CachedTokenSet = some cached)
    (hv : (u.Clock.Now s).1 + (margin : Int) < cached.IDTokenClaims.Expiry) :
    (Do margin g u ctx i s).val =
      (some { AlreadyHasValidIDToken := true, TokenSet := cached }, none) ∧
    (∀ e ∈ (Do margin g u ctx i s).log,
      e.kind ≠ CallKind.FactoryNew ∧ e.kind ≠ CallKind.Refresh ∧ e.kind ≠ CallKind.Flow) ∧
    (∀ e ∈ (Do margin g u ctx i s).log, e.kind = CallKind.Now ∨ e.kind = CallKind.Infof) := by
  simp [Do, hc, Eff.andThen, Eff.call, Eff.act, Eff.ret, Infof, hv, Event.kind]

/-- C9, as amended: for every input whose cached ID token is expired (the
clock's `Now()` plus the margin is not before its expiry) and whose cached
refresh token is non-empty, when the factory builds a client, `Refresh` of that
client fails and exactly one grant option is set, for the kind `k`:
`Authentication.Do` calls `Refresh` exactly once, with that refresh token, then
runs the flow configured for `k`, once, on that client, and nothing after it,
and returns the result of that flow: its token set with
`AlreadyHasValidIDToken = false` and a nil error when the flow succeeds, and
when the flow fails the error of the flow, wrapped with the stage of that
strategy.  The error of the refresh is not what is returned. -/
theorem Do_falls_back_after_failed_refresh (margin : Nat) (g : Generators σ)
    (u : Authentication σ) (ctx : Context) (i : Input) (s : σ) (cached : oidc.TokenSet)
    (k : FlowKind) (client : oidcclient.Interface σ) (s1 s2 : σ) (e : Error)
    (hc : i.CachedTokenSet = some cached)
    (hx : ¬ (u.Clock.Now s).1 + (margin : Int) < cached.IDTokenClaims.Expiry)
    (hr : cached.RefreshToken ≠ "")
    (hk : i.GrantOptionSet.configured = [k])
    (h1 : u.OIDCClient.New ctx i.Provider (u.Clock.Now s).2 = (.ok client, s1))
    (h2 : client.Refresh ctx cached.RefreshToken (u.Logger.Infof 1 "refresh attempt" s1)
      = (.error e, s2)) :
    ∃ flow, flowOf g u ctx i client k = some flow ∧
      (Do margin g u ctx i s).log =
        [Event.Now (u.Clock.Now s).1, Event.FactoryNew ctx i.Provider none,
         Event.Infof 1 "refresh attempt",
         Event.Refresh ctx cached.RefreshToken (.error e),
         Event.Infof 1 "refresh failure", Event.Infof 1 "flow dispatch", Event.Flow k] ++
        (flow (u.Logger.Infof 1 "flow dispatch" (u.Logger.Infof 1 "refresh failure" s2))).log
        ++ [Event.FlowReturned k
          (flow (u.Logger.Infof 1 "flow dispatch"
            (u.Logger.Infof 1 "refresh failure" s2))).val] ∧
      (Do margin g u ctx i s).st =
        (flow (u.Logger.Infof 1 "flow dispatch" (u.Logger.Infof 1 "refresh failure" s2))).st ∧
      ((Do margin g u ctx i s).log.filter fun x => x.kind = CallKind.Refresh) =
        [Event.Refresh ctx cached.RefreshToken (.error e)] ∧
      ((Do margin g u ctx i s).log.filter fun x => x.kind = CallKind.Flow) = [Event.Flow k] ∧
      (∀ ts,
        (flow (u.Logger.Infof 1 "flow dispatch" (u.Logger.Infof 1 "refresh failure" s2))).val
          = (some ts, none) →
        (Do margin g u ctx i s).val =
          (some { AlreadyHasValidIDToken := false, TokenSet := ts }, none)) ∧
      (∀ fe,
        (flow (u.Logger.Infof 1 "flow dispatch" (u.Logger.Infof 1 "refresh failure" s2))).val.2
          = some fe →
        (Do margin g u ctx i s).val =
          (none, some (xerrors.Errorf (strategyStage k) fe))) := by
  obtain ⟨flow, hflow, hkinds, hd⟩ := dispatch_one g u ctx i client (some e) k hk
  have hrun : Do margin g u ctx i s =
      ⟨finish k (flow (u.Logger.Infof 1 "flow dispatch"
          (u.Logger.Infof 1 "refresh failure" s2))).val,
        (flow (u.Logger.Infof 1 "flow dispatch" (u.Logger.Infof 1 "refresh failure" s2))).st,
        [Event.Now (u.Clock.Now s).1, Event.FactoryNew ctx i.Provider none,
         Event.Infof 1 "refresh attempt",
         Event.Refresh ctx cached.RefreshToken (.error e),
         Event.Infof 1 "refresh failure", Event.Infof 1 "flow dispatch", Event.Flow k] ++
        (flow (u.Logger.Infof 1 "flow dispatch" (u.Logger.Infof 1 "refresh failure" s2))).log
        ++ [Event.FlowReturned k
          (flow (u.Logger.Infof 1 "flow dispatch"
            (u.Logger.Infof 1 "refresh failure" s2))).val]⟩ := by
    simp [Do, hc, hx, hr, refresh, newClient, Eff.andThen, Eff.call, Eff.act, Eff.ret, Infof,
      h1, h2, hd, runFlow, Eff.mark, Event.errOf]
  have hnone := hkinds (u.Logger.Infof 1 "flow dispatch" (u.Logger.Infof 1 "refresh failure" s2))
  refine ⟨flow, hflow, ?_⟩
  generalize flow (u.Logger.Infof 1 "flow dispatch" (u.Logger.Infof 1 "refresh failure" s2))
    = ran at hrun hnone ⊢
  have hR : (ran.log.filter fun x => x.kind = CallKind.Refresh) = [] := by
    rw [List.filter_eq_nil_iff]
    intro x hx2
    simpa using (hnone x hx2).1
  have hF : (ran.log.filter fun x => x.kind = CallKind.Flow) = [] := by
    rw [List.filter_eq_nil_iff]
    intro x hx2
    simpa using (hnone x hx2).2.1
  refine ⟨?_, ?_, ?_, ?_, ?_, ?_⟩
  · rw [hrun]
  · rw [hrun]
  · rw [hrun]
    simp only [List.filter_append, hR]
    simp [Event.kind]
  · rw [hrun]
    simp only [List.filter_append, hF]
    simp [Event.kind]
  · intro ts hv
    rw [hrun]
    simp [hv, finish]
  · intro fe hv
    rw [hrun]
    rcases hval : ran.val with ⟨a, b⟩
    rw [hval] at hv
    simp only at hv
    subst hv
    cases a <;> rfl

end authentication.Authentication

/-! ## The claims at the concrete scenario -/

namespace scenario

/-- The input of the exchange in the scenario. -/
theorem run_exchange :
    Event.ExchangeAuthCode ctx
      (authcode.exchangeInput "NONCE" ⟨.S256, "VERIFIER", "CHALLENGE"⟩ "AUTHCODE")
      (.ok newTokens) ∈ run.log := by
  decide

/-- The input of the URL-building step in the scenario. -/
theorem run_url :
    Event.GetAuthCodeURL
      (authcode.urlInput option "STATE" "NONCE" ⟨.S256, "VERIFIER", "CHALLENGE"⟩)
      "https://issuer.example.com/auth?state=STATE" ∈ run.log := by
  decide

/-- The scenario in which the read fails: no token set, the error of the
read stage, no exchange, and the URL on the terminal. -/
theorem runNoInput_result :
    runNoInput.val =
      (none, some (xerrors.Errorf "could not read an authorization code" (xerrors.New "EOF"))) ∧
    (∀ e ∈ runNoInput.log, e.kind ≠ CallKind.ExchangeAuthCode) ∧
    runNoInput.st =
      ["Please visit the following URL in your browser: " ++
        "https://issuer.example.com/auth?state=STATE"] := by
  decide

/-- C1 at the scenario: the exchange is reached, with the nonce and the PKCE
parameters of the URL-building step, which the generators returned. -/
theorem Do_exchange_same_nonce_and_pkce_witness :
    Event.ExchangeAuthCode ctx
      (authcode.exchangeInput "NONCE" ⟨.S256, "VERIFIER", "CHALLENGE"⟩ "AUTHCODE")
      (.ok newTokens) ∈ run.log ∧
    ((∃ j url ms, Event.GetAuthCodeURL j url ∈ run.log ∧
      j.Nonce = "NONCE" ∧ j.PKCEParams = ⟨.S256, "VERIFIER", "CHALLENGE"⟩ ∧
      Event.NewNonce (.ok "NONCE") ∈ run.log ∧
      Event.PKCENew ms (.ok ⟨.S256, "VERIFIER", "CHALLENGE"⟩) ∈ run.log) ∧
    (run.log.filter fun e => e.kind = CallKind.NewNonce).length = 1 ∧
    (run.log.filter fun e => e.kind = CallKind.PKCENew).length = 1 ∧
    (run.log.filter fun e => e.kind = CallKind.GetAuthCodeURL).length = 1 ∧
    (run.log.filter fun e => e.kind = CallKind.ExchangeAuthCode).length = 1) :=
  ⟨run_exchange,
   authcode.Keyboard.Do_exchange_same_nonce_and_pkce generators (keyboard (.ok "AUTHCODE")) ctx
     option client [] ctx _ _ run_exchange⟩

/-- C2 at the scenario: no call fails, and the tokens of the exchange are
returned. -/
theorem Do_returns_exchanged_tokens_witness :
    (∀ e ∈ run.log, e.err = none) ∧
    ∃ i ts got, Event.ExchangeAuthCode ctx i (.ok ts) ∈ run.log ∧
      run.val = (some got, none) ∧
      got.IDToken = ts.IDToken ∧ got.IDTokenClaims = ts.IDTokenClaims ∧
      got.RefreshToken = ts.RefreshToken :=
  ⟨by decide,
   authcode.Keyboard.Do_returns_exchanged_tokens generators (keyboard (.ok "AUTHCODE")) ctx
     option client [] (by decide)⟩

/-- C4 at the scenario: the reader returns "AUTHCODE" and that is the code
exchanged. -/
theorem Do_exchanges_the_code_read_witness :
    Event.ReadString "Enter code: " (.ok "AUTHCODE") ∈ run.log ∧
    ("Enter code: " = "Enter code: " ∧
    ∀ code, Except.ok "AUTHCODE" = (Except.ok code : Except Error String) →
      (∃ i x, Event.ExchangeAuthCode ctx i x ∈ run.log ∧ i.Code = code) ∧
      ∀ c i x, Event.ExchangeAuthCode c i x ∈ run.log → i.Code = code) :=
  ⟨by decide,
   authcode.Keyboard.Do_exchanges_the_code_read generators (keyboard (.ok "AUTHCODE")) ctx
     option client [] "Enter code: " (.ok "AUTHCODE") (by decide)⟩

/-- C6 as stated fails at the scenario: the verifier that `pkce.New` returned,
"VERIFIER", is in the input `Keyboard.Do` gives to `client.GetAuthCodeURL`. -/
theorem Do_gives_verifier_to_GetAuthCodeURL :
    ∃ ms p j url,
      Event.PKCENew ms (.ok p) ∈ run.log ∧ Event.GetAuthCodeURL j url ∈ run.log ∧
      p.Verifier = "VERIFIER" ∧ j.PKCEParams.Verifier = "VERIFIER" :=
  ⟨[.S256], ⟨.S256, "VERIFIER", "CHALLENGE"⟩, _, _, by decide, run_url, rfl, rfl⟩

/-- C6, as amended, at the scenario. -/
theorem Do_verifier_goes_to_the_client_only_witness :
    Event.PKCENew [.S256] (.ok ⟨.S256, "VERIFIER", "CHALLENGE"⟩) ∈ run.log ∧
    ((∃ j url, Event.GetAuthCodeURL j url ∈ run.log) ∧
    (∀ j url, Event.GetAuthCodeURL j url ∈ run.log →
      j.PKCEParams = ⟨.S256, "VERIFIER", "CHALLENGE"⟩ ∧ j.PKCEParams.Verifier = "VERIFIER") ∧
    (∀ c i r, Event.ExchangeAuthCode c i r ∈ run.log →
      i.PKCEParams = ⟨.S256, "VERIFIER", "CHALLENGE"⟩ ∧ i.PKCEParams.Verifier = "VERIFIER") ∧
    (∀ q r, Event.ReadString q r ∈ run.log → q = authcode.keyboardPrompt) ∧
    (∀ n msg, Event.Infof n msg ∈ run.log →
      msg = authcode.startedMsg ∨ msg = authcode.exchangingMsg ∨ msg = authcode.finishedMsg) ∧
    (∀ msg, Event.Printf msg ∈ run.log →
      ∃ j url, Event.GetAuthCodeURL j url ∈ run.log ∧ msg = authcode.visitMsg ++ url)) :=
  ⟨by decide,
   authcode.Keyboard.Do_verifier_goes_to_the_client_only generators (keyboard (.ok "AUTHCODE"))
     ctx option client [] [.S256] ⟨.S256, "VERIFIER", "CHALLENGE"⟩ (by decide)⟩

/-- C7 at the scenario: the extra parameter of the option and the generated
state are in the input of `client.GetAuthCodeURL`. -/
theorem Do_forwards_extra_params_and_state_witness :
    Event.GetAuthCodeURL
      (authcode.urlInput option "STATE" "NONCE" ⟨.S256, "VERIFIER", "CHALLENGE"⟩)
      "https://issuer.example.com/auth?state=STATE" ∈ run.log ∧
    ((authcode.urlInput option "STATE" "NONCE"
        ⟨.S256, "VERIFIER", "CHALLENGE"⟩).AuthRequestExtraParams = [("prompt", "login")] ∧
    Event.NewState (.ok "STATE") ∈ run.log ∧
    (run.log.filter fun e => e.kind = CallKind.NewState).length = 1) :=
  ⟨run_url,
   authcode.Keyboard.Do_forwards_extra_params_and_state generators (keyboard (.ok "AUTHCODE"))
     ctx option client [] _ _ run_url⟩

/-- C8 at the test case HasValidIDToken: expiry 2020-01-02T03:04:05Z, the
clock one hour earlier, a factory that cannot build a client. -/
theorem Do_valid_cached_token_witness :
    (expiryTime - 3600 + ((10 : Nat) : Int) < (cached "").IDTokenClaims.Expiry) ∧
    (runValid.val = (some { AlreadyHasValidIDToken := true, TokenSet := cached "" }, none) ∧
    (∀ e ∈ runValid.log,
      e.kind ≠ CallKind.FactoryNew ∧ e.kind ≠ CallKind.Refresh ∧ e.kind ≠ CallKind.Flow) ∧
    (∀ e ∈ runValid.log, e.kind = CallKind.Now ∨ e.kind = CallKind.Infof)) :=
  ⟨by decide,
   authentication.Authentication.Do_valid_cached_token 10 generators
     (auth (expiryTime - 3600) noFactory) ctx _ [] (cached "") rfl (by decide)⟩

/-- C9 as stated fails at the scenario with a wrong password: the cached ID
token is expired, the refresh token is non-empty, `Refresh` fails, exactly one
grant option is set, and `Authentication.Do` returns no token set and the error
of the flow. -/
theorem Do_fallback_flow_can_fail :
    ¬ (expiryTime + 3600 + ((10 : Nat) : Int) <
        (cached "EXPIRED_REFRESH_TOKEN").IDTokenClaims.Expiry) ∧
    (cached "EXPIRED_REFRESH_TOKEN").RefreshToken ≠ "" ∧
    badPasswordGrant.configured = [FlowKind.ROPC] ∧
    Event.Refresh ctx "EXPIRED_REFRESH_TOKEN" (.error (xerrors.New "token has expired"))
      ∈ runBadPassword.log ∧
    Event.Flow FlowKind.ROPC ∈ runBadPassword.log ∧
    (auth (expiryTime + 3600) factory).ROPC.Do ctx ⟨"USER", "WRONG"⟩ client [] =
      ((none, some (xerrors.New "invalid credentials")), []) ∧
    runBadPassword.val =
      (none, some (xerrors.Errorf "ropc error" (xerrors.New "invalid credentials"))) := by
  decide

/-- C9, as amended, at the test case HasExpiredRefreshToken/Browser: the
refresh fails, the browser flow runs and its tokens are returned. -/
theorem Do_falls_back_after_failed_refresh_witness :
    (¬ (expiryTime + 3600 + ((10 : Nat) : Int) <
        (cached "EXPIRED_REFRESH_TOKEN").IDTokenClaims.Expiry) ∧
     (cached "EXPIRED_REFRESH_TOKEN").RefreshToken ≠ "" ∧
     browserGrant.configured = [FlowKind.Browser] ∧
     factory.New ctx dummyProvider [] = (.ok client, []) ∧
     client.Refresh ctx "EXPIRED_REFRESH_TOKEN" [] =
       (.error (xerrors.New "token has expired"), [])) ∧
    (∃ flow,
      authentication.Authentication.flowOf generators (auth (expiryTime + 3600) factory) ctx
        { Provider := dummyProvider, GrantOptionSet := browserGrant,
          CachedTokenSet := some (cached "EXPIRED_REFRESH_TOKEN") } client FlowKind.Browser
        = some flow ∧
      runExpired.log =
        [Event.Now (expiryTime + 3600), Event.FactoryNew ctx dummyProvider none,
         Event.Infof 1 "refresh attempt",
         Event.Refresh ctx "EXPIRED_REFRESH_TOKEN" (.error (xerrors.New "token has expired")),
         Event.Infof 1 "refresh failure", Event.Infof 1 "flow dispatch",
         Event.Flow FlowKind.Browser] ++ (flow []).log ++
        [Event.FlowReturned FlowKind.Browser (flow []).val] ∧
      runExpired.st = (flow []).st ∧
      (runExpired.log.filter fun x => x.kind = CallKind.Refresh) =
        [Event.Refresh ctx "EXPIRED_REFRESH_TOKEN"
          (.error (xerrors.New "token has expired"))] ∧
      (runExpired.log.filter fun x => x.kind = CallKind.Flow) =
        [Event.Flow FlowKind.Browser] ∧
      (∀ ts, (flow []).val = (some ts, none) →
        runExpired.val = (some { AlreadyHasValidIDToken := false, TokenSet := ts }, none)) ∧
      (∀ fe, (flow []).val.2 = some fe →
        runExpired.val =
          (none, some (xerrors.Errorf (authentication.strategyStage FlowKind.Browser) fe)))) :=
  ⟨⟨by decide, by decide, by decide, rfl, rfl⟩,
   authentication.Authentication.Do_falls_back_after_failed_refresh 10 generators
     (auth (expiryTime + 3600) factory) ctx
     { Provider := dummyProvider, GrantOptionSet := browserGrant,
       CachedTokenSet := some (cached "EXPIRED_REFRESH_TOKEN") } []
     (cached "EXPIRED_REFRESH_TOKEN") FlowKind.Browser client [] []
     (xerrors.New "token has expired") rfl (by decide) (by decide) (by decide) rfl rfl⟩

end scenario
